import Mathlib

/-!
Shallow embedding of the Extraction & Reconciliation Engine of the
property-listing scraper (src/app/scraper/scraper.py), together with
theorems settling the frozen claims about it.

The reconciliation operates on pandas DataFrames whose rows carry the 23
columns listed in the column_order of the script.  A row is modelled as a
structure; the three provenance columns (First Scrape Date, Original
Price (USD), Original Price (IDR)) and Last Scrape Date are `Option`
valued because a freshly scraped row does not carry them at all (pandas
represents the missing cells as NaN after the concat).  Timestamps are
the strftime strings the code stores; prices are the Python ints the
price normalizer produces; the float-valued area columns are carried
opaquely by the reconciliation and are modelled as integers.
-/

namespace Py

/-!
Structurally recursive models of the Python string primitives the
scraper uses (str.strip, str.split on a one-character separator,
str.upper, str.lower, the substring test, int() on a digits-and-dots
string, str.join).  They are written over the character list of the
string so that every use reduces inside the kernel.
-/

/-- Python str.strip(): drop leading and trailing whitespace. -/
def stripChars (l : List Char) : List Char :=
  ((l.dropWhile Char.isWhitespace).reverse.dropWhile Char.isWhitespace).reverse

/-- Python str.strip() on a string. -/
def strip (s : String) : String :=
  String.mk (stripChars s.data)

/-- Helper of split: cut the character list at every separator. -/
def splitAux (sep : Char) : List Char → List Char → List (List Char)
  | [], acc => [acc.reverse]
  | c :: cs, acc =>
    if c = sep then acc.reverse :: splitAux sep cs []
    else splitAux sep cs (c :: acc)

/-- Python str.split(sep) for a one-character separator: every separator
occurrence cuts, and an input without the separator yields the
one-element list holding the input. -/
def split (sep : Char) (s : String) : List String :=
  (splitAux sep s.data []).map String.mk

/-- Python str.upper() (the scraper only compares ASCII text). -/
def upper (s : String) : String :=
  String.mk (s.data.map Char.toUpper)

/-- Python str.lower(). -/
def lower (s : String) : String :=
  String.mk (s.data.map Char.toLower)

/-- The Python substring test 'c in s' for a one-character needle. -/
def containsChar (c : Char) (s : String) : Bool :=
  s.data.contains c

/-- Value of a digit string. -/
def natOfDigits (l : List Char) : Nat :=
  l.foldl (fun n c => n * 10 + (c.toNat - 48)) 0

/-- Python int() restricted to the digits-and-dots strings the price
normalizer feeds it: it succeeds exactly on nonempty all-digit strings
(a remaining dot raises ValueError, as does the empty string). -/
def int? (s : String) : Option Nat :=
  if !s.data.isEmpty && s.data.all Char.isDigit then
    some (natOfDigits s.data)
  else none

/-- Python sep.join(list). -/
def joinWith (sep : String) : List String → String
  | [] => ""
  | [x] => x
  | x :: xs => x ++ sep ++ joinWith sep xs

/-- Lexicographic comparison of two character lists by code point, the
order pandas uses when sorting a string column. -/
def ltList : List Char → List Char → Bool
  | [], [] => false
  | [], _ :: _ => true
  | _ :: _, [] => false
  | a :: as, b :: bs =>
    if a < b then true
    else if b < a then false
    else ltList as bs

/-- Lexicographic comparison of two strings. -/
def strLt (a b : String) : Bool :=
  ltList a.data b.data

end Py

/-- One row of the scraper's tabular dataset, with the columns produced by
gen_detail_dict plus the four date/provenance columns added by
update_dataframe. -/
structure Row where
  title : String
  listed : String
  last_price_usd : Int
  last_price_idr : Int
  payment_period_usd : String
  payment_period_idr : String
  code : String
  location : String
  type_of_sale : String
  lease_years : Int
  url : String
  property_type : String
  year_built : String
  bedrooms : Int
  bathrooms : Int
  land_size : Int
  building_size : Int
  pool : String
  furnished : String
  first_scrape_date : Option String
  last_scrape_date : Option String
  original_price_usd : Option Int
  original_price_idr : Option Int
deriving DecidableEq, Repr

/-- The Codes column of a frame: df['Code']. -/
def codesOf (l : List Row) : List String :=
  l.map Row.code

/-- pandas drop_duplicates(subset='Code') with the default keep='first':
walk the rows in order and keep a row only when its Code has not been
seen before. -/
def dropDupByCode (seen : List String) : List Row → List Row
  | [] => []
  | r :: rs =>
    if seen.contains r.code then
      dropDupByCode seen rs
    else
      r :: dropDupByCode (r.code :: seen) rs

/-- The row-wise helper fillna_from_same_row of update_dataframe
(scraper.py lines 64-71): each of the three provenance cells, when NaN,
is filled from another cell of the same row. -/
def fillna_from_same_row (row : Row) : Row :=
  let r1 :=
    if row.first_scrape_date.isNone then
      { row with first_scrape_date := row.last_scrape_date }
    else row
  let r2 :=
    if r1.original_price_usd.isNone then
      { r1 with original_price_usd := some r1.last_price_usd }
    else r1
  let r3 :=
    if r2.original_price_idr.isNone then
      { r2 with original_price_idr := some r2.last_price_idr }
    else r2
  r3

/-- The .loc mask of update_dataframe (scraper.py lines 77-78): rows whose
Code is not among the fresh batch's Codes get Listed = 'Unlisted'. -/
def markUnlisted (freshCodes : List String) (l : List Row) : List Row :=
  l.map fun r =>
    if freshCodes.contains r.code then r
    else { r with listed := "Unlisted" }

/-- Descending comparison on the First Scrape Date column used by
sort_values('First Scrape Date', ascending=False); the strftime strings
compare lexicographically, and NaN dates sort last as in pandas. -/
def dateKeyGe (a b : Option String) : Bool :=
  match a, b with
  | none, none => true
  | none, some _ => false
  | some _, none => true
  | some x, some y => !Py.strLt x y

/-- The relation rows are sorted by in update_dataframe's final
sort_values call. -/
def rowDateGe (a b : Row) : Prop :=
  dateKeyGe a.first_scrape_date b.first_scrape_date = true

instance : DecidableRel rowDateGe := fun _ _ =>
  inferInstanceAs (Decidable (_ = true))

/-- Shallow embedding of update_dataframe (scraper.py lines 40-85).
df is the freshly scraped batch, df_previous the dataset read back from
the sheet, and now the strftime string dt.datetime.now() produces during
the run.  First-time scrape: the provenance columns are assigned from
the run time and the current prices.  Subsequent scrapes: Last Scrape
Date is set on the fresh batch, the fresh batch is concatenated in front
of the previous dataset, duplicates by Code are dropped keeping the
first occurrence, NaN provenance cells are filled row-wise, rows whose
Code is absent from the fresh batch are marked 'Unlisted', and the
result is sorted by First Scrape Date descending. -/
def update_dataframe (df df_previous : List Row) (now : String) : List Row :=
  if df_previous.isEmpty then
    df.map fun r =>
      { r with
        first_scrape_date := some now
        last_scrape_date := some now
        original_price_usd := some r.last_price_usd
        original_price_idr := some r.last_price_idr }
  else
    let df2 := df.map fun r => { r with last_scrape_date := some now }
    let df_concatenated := df2 ++ df_previous
    let deduped := dropDupByCode [] df_concatenated
    let filled := deduped.map fillna_from_same_row
    let marked := markUnlisted (codesOf df2) filled
    List.insertionSort rowDateGe marked

/-- The is_listed determination of change_currency_n_get_soup
(scraper.py lines 127-133): a property whose link redirects elsewhere is
tagged 'Unlisted' already at fetch time. -/
def is_listed_of (current_url property_link : String) : String :=
  if current_url ≠ property_link then "Unlisted" else "Listed"

/-- A row with neutral values, used to build the concrete rows of the
witnesses and counterexamples. -/
def baseRow : Row :=
  { title := "Villa"
    listed := "Listed"
    last_price_usd := 0
    last_price_idr := 0
    payment_period_usd := "one time"
    payment_period_idr := "one time"
    code := ""
    location := "Canggu"
    type_of_sale := "freehold"
    lease_years := 0
    url := ""
    property_type := "villa"
    year_built := "2020"
    bedrooms := 3
    bathrooms := 2
    land_size := 5
    building_size := 200
    pool := "yes"
    furnished := "Furnished"
    first_scrape_date := none
    last_scrape_date := none
    original_price_usd := none
    original_price_idr := none }

/-- Prior-dataset row for Code V100: first seen at T0 with original
prices captured then. -/
def priorV100 : Row :=
  { baseRow with
    code := "V100"
    last_price_usd := 33000
    last_price_idr := 500000000
    first_scrape_date := some "2023-01-01 00:00:00"
    last_scrape_date := some "2023-01-01 00:00:00"
    original_price_usd := some 33000
    original_price_idr := some 500000000 }

/-- Fresh-batch row for Code V100 with a lowered price, as produced by
gen_detail_dict: no provenance columns yet. -/
def freshV100 : Row :=
  { baseRow with
    code := "V100"
    last_price_usd := 30000
    last_price_idr := 450000000 }

/-- A second fresh row carrying the same Code V100 at a different price,
as would arise when one property is discovered twice in a crawl. -/
def freshV100dup : Row :=
  { baseRow with
    code := "V100"
    last_price_usd := 31000
    last_price_idr := 460000000 }

/-- Prior-dataset row for Code V200. -/
def priorV200 : Row :=
  { baseRow with
    code := "V200"
    last_price_usd := 90000
    last_price_idr := 1400000000
    first_scrape_date := some "2023-02-02 00:00:00"
    last_scrape_date := some "2023-02-02 00:00:00"
    original_price_usd := some 90000
    original_price_idr := some 1400000000 }

/-- Fresh-batch row for Code V200. -/
def freshV200 : Row :=
  { baseRow with
    code := "V200"
    last_price_usd := 85000
    last_price_idr := 1300000000 }

/-- A fresh row whose fetch redirected, so change_currency_n_get_soup
already tagged it 'Unlisted' (scraper.py lines 127-133). -/
def freshUnlistedV100 : Row :=
  { baseRow with
    code := "V100"
    listed := is_listed_of "https://example.com/search" "https://example.com/v100"
    last_price_usd := 30000
    last_price_idr := 450000000 }

namespace get_only_villas_features

/-- The joined result of re.findall of digits-and-dots runs over the raw
price text, as in the inner get_price_parameters of
get_only_villas_features (scraper.py line 315): joining all maximal runs
of characters in the class keeps exactly the characters of the class, in
order. -/
def joined_digits (price : String) : String :=
  String.mk (price.data.filter fun c => c.isDigit || c == '.')

/-- Shallow embedding of the inner get_price_parameters of
get_only_villas_features (scraper.py lines 312-323).  Its input is the
list of stripped texts of the '.regular-price' elements.  Taking element
0 of an empty list raises IndexError, and Python's int() rejects any
string that is empty or still contains a dot; both exceptions are caught
and degrade the result to (0, 'on request').  String.toNat? succeeds on
exactly the strings Python's int() accepts among digits-and-dots
strings: nonempty and all digits. -/
def get_price_parameters (prices : List String) : Nat × String :=
  match prices with
  | [] => (0, "on request")
  | p :: _ =>
    match Py.int? (joined_digits (Py.strip p)) with
    | some n => (n, "one time")
    | none => (0, "on request")

/-- First if of the furnished chain (scraper.py lines 256-258 / 289-291):
both sides of each comparison are uppercased in the source. -/
def furnished_step1 (f : String) : String :=
  if Py.upper f = "YES" ∨ Py.upper f = "FURNISH" then "Furnished" else f

/-- Second if of the furnished chain (lines 259-263 / 292-296). -/
def furnished_step2 (f : String) : String :=
  if Py.upper f = "FULL FURNISHED" ∨ Py.upper f = "FULLY" ∨
      Py.upper f = "FULL FURNISH" ∨ Py.upper f = "FULL" then
    "Fully Furnished"
  else f

/-- Third if of the furnished chain (lines 264-267 / 297-300). -/
def furnished_step3 (f : String) : String :=
  if Py.upper f = "NO FURNISH" ∨ Py.upper f = "NO" ∨
      Py.upper f = "UN-FURNISH" then
    "Unfurnished"
  else f

/-- Fourth if of the furnished chain (lines 268-272 / 301-305). -/
def furnished_step4 (f : String) : String :=
  if Py.upper f = "SEMI" ∨ Py.upper f = "SEMI-FURNISHED" ∨
      Py.upper f = "SEMI FRUNISHED" ∨ Py.upper f = "SEMI FURNISH" then
    "Semi Furnished"
  else f

/-- The sequential if-chain normalizing the furnished text
(scraper.py lines 256-272 and 289-305): each matching if reassigns the
variable, so the later comparisons see the already-rewritten value —
the chain is the composition of the four steps in order. -/
def normalize_furnished (f0 : String) : String :=
  furnished_step4 (furnished_step3 (furnished_step2 (furnished_step1 f0)))

/-- Extraction of the furnished level in the branch where 'Year Built'
is present (scraper.py lines 252-277): description_items[7] is split on
newline, element 1 is stripped and lowercased, then normalized; an
IndexError on either indexing is caught and yields 'Unknown'. -/
def furnished_with_year (description_items : List String) : String :=
  match description_items.get? 7 with
  | none => "Unknown"
  | some s =>
    match (Py.split '\n' s).get? 1 with
    | none => "Unknown"
    | some t => normalize_furnished (Py.lower (Py.strip t))

/-- Extraction of the furnished level in the branch without 'Year Built'
(scraper.py lines 285-310): description_items[6], stripped but not
lowercased, then the same if-chain. -/
def furnished_without_year (description_items : List String) : String :=
  match description_items.get? 6 with
  | none => "Unknown"
  | some s =>
    match (Py.split '\n' s).get? 1 with
    | none => "Unknown"
    | some t => normalize_furnished (Py.strip t)

end get_only_villas_features

namespace get_renting_prices_periods

/-- The villa-rental parse of the inner get_price_parameters of
get_renting_prices_periods (scraper.py lines 367-379): the amount comes
from the text before the first '/', the period label from after the '/'
of the second line when the text spans two lines, and any exception in
the try block degrades to (0, 'on request'). -/
def villa_rent_parse (raw : String) : Nat × String :=
  match Py.int? (get_only_villas_features.joined_digits
      ((Py.split '/' raw).headD "")) with
  | none => (0, "on request")
  | some price =>
    let period? :=
      if Py.containsChar '\n' raw then
        ((Py.split '\n' raw).get? 1).bind fun s => (Py.split '/' s).get? 1
      else
        (Py.split '/' raw).get? 1
    match period? with
    | none => (0, "on request")
    | some period => (price, Py.strip period)

/-- The land parse of the inner get_price_parameters of
get_renting_prices_periods (scraper.py lines 380-407): when the text
spans two lines only the first line is parsed; a '/' separates amount
from period label (not stripped here), otherwise the period is
'one time'; exceptions degrade to (0, 'on request'). -/
def land_parse (raw : String) : Nat × String :=
  if Py.containsChar '\n' raw then
    let price_string := (Py.split '\n' raw).headD ""
    if Py.containsChar '/' price_string then
      match Py.int? (get_only_villas_features.joined_digits
          ((Py.split '/' price_string).headD "")) with
      | some n => (n, (Py.split '/' price_string).getD 1 "")
      | none => (0, "on request")
    else
      match Py.int? (get_only_villas_features.joined_digits price_string) with
      | some n => (n, "one time")
      | none => (0, "on request")
  else
    if Py.containsChar '/' raw then
      match Py.int? (get_only_villas_features.joined_digits
          ((Py.split '/' raw).headD "")) with
      | some n => (n, (Py.split '/' raw).getD 1 "")
      | none => (0, "on request")
    else
      match Py.int? (get_only_villas_features.joined_digits raw) with
      | some n => (n, "one time")
      | none => (0, "on request")

/-- Shallow embedding of the inner get_price_parameters of
get_renting_prices_periods (scraper.py lines 365-409).  The first line,
raw_string = [price.text.strip() for price in prices][0].strip(), runs
OUTSIDE the try blocks: on an empty element list it raises an uncaught
IndexError, modelled as Except.error.  Everything after that point is
covered by a try/except and stays total. -/
def get_price_parameters (prices : List String)
    (property_type : String) : Except String (Nat × String) :=
  match prices with
  | [] => Except.error "list index out of range"
  | p :: _ =>
    let raw_string := Py.strip (Py.strip p)
    if property_type = "villas" then
      Except.ok (villa_rent_parse raw_string)
    else
      Except.ok (land_parse raw_string)

end get_renting_prices_periods

/-- Shallow embedding of get_renting_prices_periods
(scraper.py lines 355-418): the USD price elements are normalized first,
then the local-currency ones, so an uncaught exception for the USD list
aborts the whole call before the other currency is processed.  The
result tuple is (price, price_usd, payment_period, payment_period_usd). -/
def get_renting_prices_periods (prices prices_usd : List String)
    (property_type : String) : Except String (Nat × Nat × String × String) :=
  match get_renting_prices_periods.get_price_parameters
      prices_usd property_type with
  | Except.error e => Except.error e
  | Except.ok pu =>
    match get_renting_prices_periods.get_price_parameters
        prices property_type with
    | Except.error e => Except.error e
    | Except.ok p => Except.ok (p.1, pu.1, p.2, pu.2)

/-- Python str.capitalize: first character uppercased, the rest
lowercased. -/
def pyCapitalize (s : String) : String :=
  match s.data with
  | [] => ""
  | c :: cs => String.mk (c.toUpper :: cs.map Char.toLower)

/-- The Furnished entry of gen_detail_dict (scraper.py lines 448-449):
every space-separated word of the furnished text is capitalized. -/
def furnished_field (furnished : String) : String :=
  Py.joinWith " " ((Py.split ' ' furnished).map pyCapitalize)

namespace get_shared_features

/-- The location extraction of get_shared_features (scraper.py lines
176-178): the last newline-separated token of the first colswidth20
block, replaced by 'Unknown' whenever it contains a dash anywhere. -/
def location_of (colswidth20_item0 : String) : String :=
  let location := (Py.split '\n' colswidth20_item0).getLastD ""
  if Py.containsChar '-' location then "Unknown" else location

end get_shared_features

/-- fillna_from_same_row never touches the Code cell. -/
theorem fillna_code (r : Row) :
    (fillna_from_same_row r).code = r.code := by
  simp only [fillna_from_same_row]
  split <;> split <;> split <;> rfl

/-- fillna_from_same_row never touches the Listed cell. -/
theorem fillna_listed (r : Row) :
    (fillna_from_same_row r).listed = r.listed := by
  simp only [fillna_from_same_row]
  split <;> split <;> split <;> rfl

/-- On a row whose three provenance cells are all present,
fillna_from_same_row is the identity. -/
theorem fillna_eq_self (r : Row)
    (h1 : r.first_scrape_date.isSome)
    (h2 : r.original_price_usd.isSome)
    (h3 : r.original_price_idr.isSome) :
    fillna_from_same_row r = r := by
  obtain ⟨a, ha⟩ := Option.isSome_iff_exists.mp h1
  obtain ⟨b, hb⟩ := Option.isSome_iff_exists.mp h2
  obtain ⟨c, hc⟩ := Option.isSome_iff_exists.mp h3
  simp [fillna_from_same_row, ha, hb, hc]

/-- Mapping a Code-preserving function over a frame leaves the Codes
column unchanged. -/
theorem codesOf_map (f : Row → Row) (hf : ∀ r, (f r).code = r.code) :
    ∀ l : List Row, codesOf (l.map f) = codesOf l
  | [] => rfl
  | r :: rs => by
    show (f r).code :: codesOf (rs.map f) = r.code :: codesOf rs
    rw [hf, codesOf_map f hf rs]

/-- The Codes column after the .loc 'Unlisted' mask. -/
theorem codesOf_markUnlisted (fc : List String) (l : List Row) :
    codesOf (markUnlisted fc l) = codesOf l :=
  codesOf_map _
    (fun r => by
      show (if fc.contains r.code then r
        else { r with listed := "Unlisted" }).code = r.code
      split <;> rfl)
    l

/-- Every row kept by drop_duplicates has a Code outside the seen set. -/
theorem dropDup_code_not_seen {q : Row} :
    ∀ {l : List Row} {seen : List String},
      q ∈ dropDupByCode seen l → q.code ∉ seen
  | [], _, h => by simp [dropDupByCode] at h
  | r :: rs, seen, h => by
    by_cases hc : seen.contains r.code
    · rw [dropDupByCode, if_pos hc] at h
      exact dropDup_code_not_seen h
    · rw [dropDupByCode, if_neg hc] at h
      rcases List.mem_cons.mp h with rfl | h'
      · exact fun hs => hc (List.elem_iff.mpr hs)
      · exact fun hs =>
          dropDup_code_not_seen h' (List.mem_cons_of_mem _ hs)

/-- drop_duplicates by Code leaves no two rows with the same Code. -/
theorem dropDup_codes_nodup :
    ∀ (l : List Row) (seen : List String),
      (codesOf (dropDupByCode seen l)).Nodup
  | [], _ => by simp [dropDupByCode, codesOf]
  | r :: rs, seen => by
    by_cases hc : seen.contains r.code
    · rw [dropDupByCode, if_pos hc]
      exact dropDup_codes_nodup rs seen
    · rw [dropDupByCode, if_neg hc]
      refine List.nodup_cons.mpr ⟨?_, dropDup_codes_nodup rs (r.code :: seen)⟩
      intro hmem
      obtain ⟨q, hq, hqc⟩ := List.mem_map.mp hmem
      exact dropDup_code_not_seen hq (hqc ▸ List.mem_cons_self _ _)

/-- Every row kept by drop_duplicates is the first occurrence of its Code
in the input frame. -/
theorem dropDup_find {q : Row} :
    ∀ {l : List Row} {seen : List String}, q ∈ dropDupByCode seen l →
      l.find? (fun x => x.code == q.code) = some q
  | [], _, h => by simp [dropDupByCode] at h
  | r :: rs, seen, h => by
    by_cases hc : seen.contains r.code
    · rw [dropDupByCode, if_pos hc] at h
      have hq : q.code ∉ seen := dropDup_code_not_seen h
      have hne : (r.code == q.code) = false := by
        refine beq_false_of_ne fun he => ?_
        exact hq (he ▸ List.elem_iff.mp hc)
      rw [List.find?_cons, hne]
      exact dropDup_find h
    · rw [dropDupByCode, if_neg hc] at h
      rcases List.mem_cons.mp h with rfl | h'
      · rw [List.find?_cons, beq_self_eq_true]
      · have hq : q.code ∉ r.code :: seen := dropDup_code_not_seen h'
        have hne : (r.code == q.code) = false := by
          refine beq_false_of_ne fun he => ?_
          exact hq (he ▸ List.mem_cons_self _ _)
        rw [List.find?_cons, hne]
        exact dropDup_find h'

/-- For a Code outside the seen set, the first matching row survives
drop_duplicates: looking it up before and after deduplication agrees. -/
theorem dropDup_find_eq {c : String} :
    ∀ {l : List Row} {seen : List String}, c ∉ seen →
      (dropDupByCode seen l).find? (fun x => x.code == c) =
        l.find? (fun x => x.code == c)
  | [], _, _ => rfl
  | r :: rs, seen, hcs => by
    by_cases hc : seen.contains r.code
    · rw [dropDupByCode, if_pos hc]
      have hne : (r.code == c) = false := by
        refine beq_false_of_ne fun he => ?_
        exact hcs (he ▸ List.elem_iff.mp hc)
      rw [List.find?_cons, hne]
      exact dropDup_find_eq hcs
    · rw [dropDupByCode, if_neg hc]
      rw [List.find?_cons, List.find?_cons]
      by_cases hr : (r.code == c) = true
      · rw [hr]
      · rw [eq_false_of_ne_true hr]
        have : c ∉ r.code :: seen := by
          intro hmem
          rcases List.mem_cons.mp hmem with rfl | h'
          · exact hr (beq_self_eq_true _)
          · exact hcs h'
        exact dropDup_find_eq this

/-- A Code present in a frame's Codes column has a first matching row. -/
theorem find?_isSome_of_mem_codes {c : String} {l : List Row}
    (h : c ∈ codesOf l) : (l.find? fun x => x.code == c).isSome := by
  obtain ⟨r, hr, hrc⟩ := List.mem_map.mp h
  exact List.find?_isSome.mpr ⟨r, hr, by simp [hrc]⟩

/-- A Code absent from a frame's Codes column has no matching row. -/
theorem find?_eq_none_of_not_mem_codes {c : String} {l : List Row}
    (h : c ∉ codesOf l) : l.find? (fun x => x.code == c) = none :=
  List.find?_eq_none.mpr fun x hx hbeq =>
    h (List.mem_map.mpr ⟨x, hx, by simpa using hbeq⟩)

/-- On a first-time scrape (empty prior dataset) update_dataframe takes
the then-branch: both date columns are assigned the run time and the
original prices the current prices; nothing else is touched. -/
theorem update_dataframe_nil_eq (df : List Row) (now : String) :
    update_dataframe df [] now =
      df.map (fun r =>
        { r with
          first_scrape_date := some now
          last_scrape_date := some now
          original_price_usd := some r.last_price_usd
          original_price_idr := some r.last_price_idr }) := rfl

/-- On a subsequent scrape (nonempty prior dataset) update_dataframe
takes the else-branch: set Last Scrape Date on the fresh batch, concat,
drop duplicate Codes, fill provenance NaNs row-wise, mark the Codes
missing from the fresh batch 'Unlisted', sort. -/
theorem update_dataframe_cons_eq (df : List Row) (p : Row) (ps : List Row)
    (now : String) :
    update_dataframe df (p :: ps) now =
      List.insertionSort rowDateGe
        (markUnlisted
          (codesOf (df.map fun r => { r with last_scrape_date := some now }))
          ((dropDupByCode []
            ((df.map fun r => { r with last_scrape_date := some now }) ++
              (p :: ps))).map fillna_from_same_row)) := rfl

/-- C1.  The claim says the provenance fields of a Code present in both
the prior dataset and the fresh batch are carried over.  The code does
the opposite: the fresh V100 row is concatenated in front, the prior
V100 row is discarded by drop_duplicates, and the fresh row's NaN
provenance is refilled from the run time and the current prices, so
First Scrape Date becomes the new run time and Original Price (USD) the
new 30000 instead of the prior 2023-01-01 / 33000. -/
theorem update_dataframe_resets_provenance_for_reseen_code :
    (update_dataframe [freshV100] [priorV100] "2024-05-05 12:00:00").map
        (fun r => (r.code, r.first_scrape_date, r.original_price_usd,
          r.original_price_idr)) =
      [("V100", some "2024-05-05 12:00:00", some (30000 : Int),
        some (450000000 : Int))] := by
  decide

/-- C2 (counterexample).  On a first run the then-branch of
update_dataframe performs no deduplication at all, so a fresh batch
holding the same Code twice yields a dataset with two V100 rows. -/
theorem first_run_keeps_duplicate_codes :
    ¬ (codesOf (update_dataframe [freshV100, freshV100dup] []
        "2024-01-01 00:00:00")).Nodup := by
  decide

/-- C2 (amended).  Whenever the prior dataset is nonempty,
update_dataframe returns a dataset with no two rows sharing a Code:
drop_duplicates guarantees it and the later column maps and the sort
preserve the Codes multiset. -/
theorem update_dataframe_codes_nodup_of_prior_nonempty
    (df df_previous : List Row) (now : String) (h : df_previous ≠ []) :
    (codesOf (update_dataframe df df_previous now)).Nodup := by
  cases df_previous with
  | nil => exact absurd rfl h
  | cons p ps =>
    rw [update_dataframe_cons_eq]
    have hperm := List.perm_insertionSort rowDateGe
      (markUnlisted
        (codesOf (df.map fun r => { r with last_scrape_date := some now }))
        ((dropDupByCode []
          ((df.map fun r => { r with last_scrape_date := some now }) ++
            (p :: ps))).map fillna_from_same_row))
    refine ((hperm.map Row.code).nodup_iff).mpr ?_
    show (codesOf (markUnlisted _ _)).Nodup
    rw [codesOf_markUnlisted, codesOf_map fillna_from_same_row fillna_code]
    exact dropDup_codes_nodup _ _

theorem update_dataframe_codes_nodup_witness :
    (codesOf (update_dataframe [freshV100] [priorV200]
      "2024-05-05 12:00:00")).Nodup :=
  update_dataframe_codes_nodup_of_prior_nonempty
    [freshV100] [priorV200] "2024-05-05 12:00:00" (by decide)

/-- C3.  Re-running the engine on its own output with the same batch is
claimed to change only Last Scrape Date.  Because the re-seen fresh row
again wins drop_duplicates with NaN provenance, First Scrape Date is
refilled from the second run's time: it moves from 2024-01-01 to
2024-01-02, refuting the claim. -/
theorem rerun_resets_first_scrape_date :
    (update_dataframe [freshV100] [] "2024-01-01 00:00:00").map
        Row.first_scrape_date = [some "2024-01-01 00:00:00"] ∧
    (update_dataframe [freshV100]
        (update_dataframe [freshV100] [] "2024-01-01 00:00:00")
        "2024-01-02 00:00:00").map
        Row.first_scrape_date = [some "2024-01-02 00:00:00"] := by
  decide

/-- C5.  A Code present in the prior dataset whose rows carry complete
provenance, and absent from the fresh batch, is carried forward into the
new dataset as its prior row unchanged except Listed = 'Unlisted': the
prior row survives drop_duplicates (no fresh row claims its Code),
fillna_from_same_row leaves its complete cells alone, and only the .loc
mask touches it. -/
theorem unlisted_carry_forward_frame (df df_previous : List Row)
    (now c : String)
    (hprov : ∀ p ∈ df_previous, p.first_scrape_date.isSome ∧
      p.original_price_usd.isSome ∧ p.original_price_idr.isSome)
    (hin : c ∈ codesOf df_previous) (hout : c ∉ codesOf df) :
    ∃ p ∈ df_previous, p.code = c ∧
      { p with listed := "Unlisted" } ∈ update_dataframe df df_previous now := by
  cases df_previous with
  | nil => simp [codesOf] at hin
  | cons q qs =>
    have hcodes2 : codesOf (df.map fun r =>
        { r with last_scrape_date := some now }) = codesOf df :=
      codesOf_map (fun r => { r with last_scrape_date := some now })
        (fun _ => rfl) df
    obtain ⟨p, hp⟩ := Option.isSome_iff_exists.mp (find?_isSome_of_mem_codes hin)
    have hpmem : p ∈ q :: qs := List.mem_of_find?_eq_some hp
    have hpcode : p.code = c := by simpa using List.find?_some hp
    have hnone : (df.map fun r =>
        { r with last_scrape_date := some now }).find?
          (fun x => x.code == c) = none :=
      find?_eq_none_of_not_mem_codes (hcodes2 ▸ hout)
    have hconcat : ((df.map fun r =>
        ({ r with last_scrape_date := some now } : Row)) ++ (q :: qs)).find?
          (fun x => x.code == c) = some p := by
      rw [List.find?_append, hnone, Option.none_or]
      exact hp
    have hdedup : (dropDupByCode [] ((df.map fun r =>
        ({ r with last_scrape_date := some now } : Row)) ++ (q :: qs))).find?
          (fun x => x.code == c) = some p := by
      rw [dropDup_find_eq (List.not_mem_nil c)]
      exact hconcat
    have hpdedup := List.mem_of_find?_eq_some hdedup
    obtain ⟨h1, h2, h3⟩ := hprov p hpmem
    have hpfilled : p ∈ (dropDupByCode [] ((df.map fun r =>
        ({ r with last_scrape_date := some now } : Row)) ++ (q :: qs))).map
          fillna_from_same_row := by
      rw [← fillna_eq_self p h1 h2 h3]
      exact List.mem_map_of_mem _ hpdedup
    have hnotc : ¬ ((codesOf (df.map fun r =>
        { r with last_scrape_date := some now })).contains p.code = true) := by
      rw [hpcode]
      intro hcontains
      exact hout (hcodes2 ▸ List.elem_iff.mp hcontains)
    have hmarked : { p with listed := "Unlisted" } ∈
        markUnlisted
          (codesOf (df.map fun r => { r with last_scrape_date := some now }))
          ((dropDupByCode [] ((df.map fun r =>
            ({ r with last_scrape_date := some now } : Row)) ++ (q :: qs))).map
            fillna_from_same_row) := by
      refine List.mem_map.mpr ⟨p, hpfilled, ?_⟩
      show (if (codesOf (df.map fun r =>
        { r with last_scrape_date := some now })).contains p.code then p
        else { p with listed := "Unlisted" }) = _
      rw [if_neg hnotc]
    refine ⟨p, hpmem, hpcode, ?_⟩
    rw [update_dataframe_cons_eq]
    exact ((List.perm_insertionSort rowDateGe _).mem_iff).mpr hmarked

theorem unlisted_carry_forward_frame_witness :
    ∃ p ∈ [priorV100], p.code = "V100" ∧
      { p with listed := "Unlisted" } ∈
        update_dataframe [freshV200] [priorV100] "2024-05-05 12:00:00" :=
  unlisted_carry_forward_frame [freshV200] [priorV100]
    "2024-05-05 12:00:00" "V100" (by decide) (by decide) (by decide)

/-- C4 (counterexample).  The claim's 'only if' direction says every
record whose Code appears in the fresh batch is listed in the output.
But change_currency_n_get_soup tags a redirected property 'Unlisted'
already at fetch time, the .loc mask only ever sets 'Unlisted' (never
'Listed'), and so a fresh V100 row arrives and stays 'Unlisted' even
though its Code is in the batch. -/
theorem fresh_code_can_stay_unlisted :
    ∃ r ∈ update_dataframe [freshUnlistedV100] [priorV200]
        "2024-05-05 12:00:00",
      r.code ∈ codesOf [freshUnlistedV100] ∧ r.listed = "Unlisted" := by
  decide

/-- C4 (amended).  After a subsequent-scrape run, a row whose Code is
absent from the fresh batch has Listed = 'Unlisted', and a row whose
Code appears in the fresh batch carries the Listed value of a fresh
record with that Code — which is the fetch-time value, not necessarily
'Listed'. -/
theorem listed_state_after_reconciliation (df df_previous : List Row)
    (now : String) (r : Row) (hne : df_previous ≠ [])
    (hr : r ∈ update_dataframe df df_previous now) :
    (r.code ∉ codesOf df → r.listed = "Unlisted") ∧
    (r.code ∈ codesOf df →
      ∃ f ∈ df, f.code = r.code ∧ r.listed = f.listed) := by
  cases df_previous with
  | nil => exact absurd rfl hne
  | cons p ps =>
    rw [update_dataframe_cons_eq] at hr
    have hcodes2 : codesOf (df.map fun x =>
        { x with last_scrape_date := some now }) = codesOf df :=
      codesOf_map (fun x => { x with last_scrape_date := some now })
        (fun _ => rfl) df
    have hr' : r ∈ markUnlisted
        (codesOf (df.map fun x => { x with last_scrape_date := some now }))
        ((dropDupByCode [] ((df.map fun x =>
          ({ x with last_scrape_date := some now } : Row)) ++
            (p :: ps))).map fillna_from_same_row) :=
      ((List.perm_insertionSort rowDateGe _).mem_iff).mp hr
    obtain ⟨q, hq, hqr⟩ := List.mem_map.mp hr'
    obtain ⟨q', hq', hq'q⟩ := List.mem_map.mp hq
    have hqcode : q.code = q'.code := by rw [← hq'q, fillna_code]
    have hqlisted : q.listed = q'.listed := by rw [← hq'q, fillna_listed]
    by_cases hc : (codesOf (df.map fun x =>
        { x with last_scrape_date := some now })).contains q.code = true
    · have hrq : r = q := by rw [← hqr, if_pos hc]
      have hmemdf : r.code ∈ codesOf df := by
        rw [hrq, ← hcodes2]
        exact List.elem_iff.mp hc
      refine ⟨fun hno => absurd hmemdf hno, fun _ => ?_⟩
      have hfind := dropDup_find hq'
      have hsome2 : ((df.map fun x =>
          ({ x with last_scrape_date := some now } : Row)).find?
            (fun x => x.code == q'.code)).isSome := by
        apply find?_isSome_of_mem_codes
        rw [hcodes2, ← hqcode, ← hrq]
        exact hmemdf
      obtain ⟨w, hw⟩ := Option.isSome_iff_exists.mp hsome2
      rw [List.find?_append, hw, Option.or_some] at hfind
      have hwq' : w = q' := by injection hfind
      have hq'df2 : q' ∈ df.map fun x =>
          ({ x with last_scrape_date := some now } : Row) :=
        hwq' ▸ List.mem_of_find?_eq_some hw
      obtain ⟨f, hf, hfq'⟩ := List.mem_map.mp hq'df2
      refine ⟨f, hf, ?_, ?_⟩
      · rw [hrq, hqcode, ← hfq']
      · rw [hrq, hqlisted, ← hfq']
    · have hrq : r = { q with listed := "Unlisted" } := by
        rw [← hqr, if_neg hc]
      constructor
      · intro _
        rw [hrq]
      · intro hmem
        exfalso
        apply hc
        apply List.elem_iff.mpr
        rw [hcodes2]
        have : r.code = q.code := by rw [hrq]
        exact this ▸ hmem

theorem listed_state_after_reconciliation_witness :
    (({ priorV200 with listed := "Unlisted" } : Row).code ∉
        codesOf [freshV100] →
      ({ priorV200 with listed := "Unlisted" } : Row).listed = "Unlisted") ∧
    (({ priorV200 with listed := "Unlisted" } : Row).code ∈
        codesOf [freshV100] →
      ∃ f ∈ [freshV100],
        f.code = ({ priorV200 with listed := "Unlisted" } : Row).code ∧
        ({ priorV200 with listed := "Unlisted" } : Row).listed = f.listed) :=
  listed_state_after_reconciliation [freshV100] [priorV200]
    "2024-05-05 12:00:00" { priorV200 with listed := "Unlisted" }
    (by decide) (by decide)

/-- C6 (counterexample).  The first-run branch never touches the Listed
column: a fresh record tagged 'Unlisted' at fetch time (redirected link)
keeps that value, so not every record of a first run ends up listed. -/
theorem first_run_does_not_force_listed :
    ¬ ∀ r ∈ update_dataframe [freshUnlistedV100] [] "2024-01-01 00:00:00",
      r.listed = "Listed" := by
  decide

/-- C6 (amended).  On a first run (empty prior dataset) the output rows
are exactly the fresh rows with First Scrape Date = Last Scrape Date =
the run time and Original Price (USD)/(IDR) copied from the current Last
Price columns; every other column, the Listed flag included, is carried
over from the fresh record unchanged. -/
theorem first_run_mem_iff (df : List Row) (now : String) (r : Row) :
    r ∈ update_dataframe df [] now ↔
      ∃ f ∈ df, r =
        { f with
          first_scrape_date := some now
          last_scrape_date := some now
          original_price_usd := some f.last_price_usd
          original_price_idr := some f.last_price_idr } := by
  rw [update_dataframe_nil_eq]
  constructor
  · intro h
    obtain ⟨f, hf, hfr⟩ := List.mem_map.mp h
    exact ⟨f, hf, hfr.symm⟩
  · rintro ⟨f, hf, rfl⟩
    exact List.mem_map_of_mem _ hf

/-- C7 (counterexample).  The rental/land price normalizer indexes
element 0 of the price list before entering any try block: on an empty
USD price-element list it raises an uncaught IndexError, and since the
USD call runs first, the IDR list is never normalized either — the
failure of one currency blocks the other. -/
theorem rent_normalizer_errors_on_empty_prices :
    get_renting_prices_periods ["Rp 100/month"] [] "villas" =
      Except.error "list index out of range" := rfl

/-- C7 (amended).  The sale-price normalizer is total with amount ≥ 0
and a period from the two-value enum even on an empty element list;
the rental/land normalizer raises only on an empty element list, and on
nonempty ones both currencies normalize without an exception. -/
theorem price_normalizer_totality (prices prices_usd : List String)
    (property_type : String) :
    0 ≤ (get_only_villas_features.get_price_parameters prices).1 ∧
    ((get_only_villas_features.get_price_parameters prices).2 = "one time" ∨
      (get_only_villas_features.get_price_parameters prices).2 =
        "on request") ∧
    (prices ≠ [] → prices_usd ≠ [] →
      (get_renting_prices_periods prices prices_usd property_type).isOk =
        true) := by
  refine ⟨Nat.zero_le _, ?_, ?_⟩
  · cases prices with
    | nil => exact Or.inr rfl
    | cons p ps =>
      simp only [get_only_villas_features.get_price_parameters]
      cases Py.int? (get_only_villas_features.joined_digits (Py.strip p)) with
      | none => exact Or.inr rfl
      | some n => exact Or.inl rfl
  · intro h1 h2
    cases prices with
    | nil => exact absurd rfl h1
    | cons p ps =>
      cases prices_usd with
      | nil => exact absurd rfl h2
      | cons u us =>
        simp only [get_renting_prices_periods,
          get_renting_prices_periods.get_price_parameters]
        by_cases hpt : property_type = "villas"
        · subst hpt; rfl
        · rw [if_neg hpt, if_neg hpt]; rfl

theorem price_normalizer_totality_witness :
    (0 ≤ (get_only_villas_features.get_price_parameters []).1 ∧
      ((get_only_villas_features.get_price_parameters []).2 = "one time" ∨
        (get_only_villas_features.get_price_parameters []).2 =
          "on request")) ∧
    (get_renting_prices_periods ["Rp 100/month"] ["$ 350/month"]
      "villas").isOk = true :=
  ⟨⟨(price_normalizer_totality [] [] "villas").1,
    (price_normalizer_totality [] [] "villas").2.1⟩,
    (price_normalizer_totality ["Rp 100/month"] ["$ 350/month"]
      "villas").2.2 (by decide) (by decide)⟩

/-- C8.  The scenario claims 'Rp 2.500.000.000' normalizes to amount
2500000000 with period 'one time'.  In the code, re.findall keeps the
dots, the joined string '2.500.000.000' makes int() raise ValueError,
and the except branch degrades the result to (0, 'on request') — only
the 'Price on Request' half of the scenario matches the code. -/
theorem sale_price_normalization_scenario :
    get_only_villas_features.get_price_parameters ["Rp 2.500.000.000"] =
      (0, "on request") ∧
    get_only_villas_features.get_price_parameters ["Price on Request"] =
      (0, "on request") := by
  decide

/-- C9 (counterexample).  The if-chain has no default: a furnished text
matching none of the recognized variants is passed through verbatim (and
gen_detail_dict then word-capitalizes it), instead of becoming the
'Unknown' sentinel or one of the four canonical buckets. -/
theorem unrecognized_furnished_passes_through :
    get_only_villas_features.furnished_with_year
        ["", "", "", "", "", "", "", "Furnished\npartially furnished"] =
      "partially furnished" ∧
    furnished_field "partially furnished" = "Partially Furnished" ∧
    "partially furnished" ∉
      ["Unfurnished", "Semi Furnished", "Furnished", "Fully Furnished",
        "Unknown"] ∧
    "Partially Furnished" ∉
      ["Unfurnished", "Semi Furnished", "Furnished", "Fully Furnished",
        "Unknown"] := by
  decide

/-- C9 (amended).  The recognized variants map case-insensitively into
the four canonical buckets; text outside the recognized vocabulary is
passed through unchanged; the 'Unknown' sentinel arises only when the
furnished token cannot be extracted at all (missing description item or
missing second line). -/
theorem furnished_mapping (s : String) :
    (Py.upper s = "YES" ∨ Py.upper s = "FURNISH" →
      get_only_villas_features.normalize_furnished s = "Furnished") ∧
    (Py.upper s = "FULL FURNISHED" ∨ Py.upper s = "FULLY" ∨
        Py.upper s = "FULL FURNISH" ∨ Py.upper s = "FULL" →
      get_only_villas_features.normalize_furnished s = "Fully Furnished") ∧
    (Py.upper s = "NO FURNISH" ∨ Py.upper s = "NO" ∨
        Py.upper s = "UN-FURNISH" →
      get_only_villas_features.normalize_furnished s = "Unfurnished") ∧
    (Py.upper s = "SEMI" ∨ Py.upper s = "SEMI-FURNISHED" ∨
        Py.upper s = "SEMI FRUNISHED" ∨ Py.upper s = "SEMI FURNISH" →
      get_only_villas_features.normalize_furnished s = "Semi Furnished") ∧
    (Py.upper s ∉
        ["YES", "FURNISH", "FULL FURNISHED", "FULLY", "FULL FURNISH",
          "FULL", "NO FURNISH", "NO", "UN-FURNISH", "SEMI",
          "SEMI-FURNISHED", "SEMI FRUNISHED", "SEMI FURNISH"] →
      get_only_villas_features.normalize_furnished s = s) ∧
    (∀ items : List String, items.length ≤ 7 →
      get_only_villas_features.furnished_with_year items = "Unknown") := by
  refine ⟨?_, ?_, ?_, ?_, ?_, ?_⟩
  · intro h
    have e1 : get_only_villas_features.furnished_step1 s = "Furnished" :=
      if_pos h
    show get_only_villas_features.furnished_step4
      (get_only_villas_features.furnished_step3
        (get_only_villas_features.furnished_step2
          (get_only_villas_features.furnished_step1 s))) = "Furnished"
    rw [e1]
    decide
  · intro h
    rcases h with h | h | h | h <;>
    · have e1 : get_only_villas_features.furnished_step1 s = s :=
        if_neg (by simp [h])
      have e2 : get_only_villas_features.furnished_step2 s =
          "Fully Furnished" := if_pos (by simp [h])
      show get_only_villas_features.furnished_step4
        (get_only_villas_features.furnished_step3
          (get_only_villas_features.furnished_step2
            (get_only_villas_features.furnished_step1 s))) =
        "Fully Furnished"
      rw [e1, e2]
      decide
  · intro h
    rcases h with h | h | h <;>
    · have e1 : get_only_villas_features.furnished_step1 s = s :=
        if_neg (by simp [h])
      have e2 : get_only_villas_features.furnished_step2 s = s :=
        if_neg (by simp [h])
      have e3 : get_only_villas_features.furnished_step3 s =
          "Unfurnished" := if_pos (by simp [h])
      show get_only_villas_features.furnished_step4
        (get_only_villas_features.furnished_step3
          (get_only_villas_features.furnished_step2
            (get_only_villas_features.furnished_step1 s))) = "Unfurnished"
      rw [e1, e2, e3]
      decide
  · intro h
    rcases h with h | h | h | h <;>
    · have e1 : get_only_villas_features.furnished_step1 s = s :=
        if_neg (by simp [h])
      have e2 : get_only_villas_features.furnished_step2 s = s :=
        if_neg (by simp [h])
      have e3 : get_only_villas_features.furnished_step3 s = s :=
        if_neg (by simp [h])
      have e4 : get_only_villas_features.furnished_step4 s =
          "Semi Furnished" := if_pos (by simp [h])
      show get_only_villas_features.furnished_step4
        (get_only_villas_features.furnished_step3
          (get_only_villas_features.furnished_step2
            (get_only_villas_features.furnished_step1 s))) =
        "Semi Furnished"
      rw [e1, e2, e3, e4]
  · intro h
    have hne : ∀ t ∈ ["YES", "FURNISH", "FULL FURNISHED", "FULLY",
        "FULL FURNISH", "FULL", "NO FURNISH", "NO", "UN-FURNISH", "SEMI",
        "SEMI-FURNISHED", "SEMI FRUNISHED", "SEMI FURNISH"],
        Py.upper s ≠ t := fun t ht he => h (he ▸ ht)
    have e1 : get_only_villas_features.furnished_step1 s = s :=
      if_neg (by rintro (he | he) <;> exact hne _ (by decide) he)
    have e2 : get_only_villas_features.furnished_step2 s = s :=
      if_neg (by rintro (he | he | he | he) <;> exact hne _ (by decide) he)
    have e3 : get_only_villas_features.furnished_step3 s = s :=
      if_neg (by rintro (he | he | he) <;> exact hne _ (by decide) he)
    have e4 : get_only_villas_features.furnished_step4 s = s :=
      if_neg (by rintro (he | he | he | he) <;> exact hne _ (by decide) he)
    show get_only_villas_features.furnished_step4
      (get_only_villas_features.furnished_step3
        (get_only_villas_features.furnished_step2
          (get_only_villas_features.furnished_step1 s))) = s
    rw [e1, e2, e3, e4]
  · intro items hlen
    have h7 : items.get? 7 = none := List.get?_eq_none.mpr hlen
    unfold get_only_villas_features.furnished_with_year
    rw [h7]

theorem furnished_mapping_witness :
    get_only_villas_features.normalize_furnished "full furnish" =
      "Fully Furnished" ∧
    get_only_villas_features.furnished_with_year [] = "Unknown" :=
  ⟨(furnished_mapping "full furnish").2.1 (by decide),
    (furnished_mapping "full furnish").2.2.2.2.2 [] (by decide)⟩

/-- C10.  get_shared_features replaces the extracted location token by
'Unknown' whenever it contains a dash anywhere: the returned location
never contains a dash, and a genuine hyphenated place name comes back as
'Unknown'. -/
theorem location_never_contains_dash (colswidth20_item0 : String) :
    Py.containsChar '-'
      (get_shared_features.location_of colswidth20_item0) = false ∧
    (Py.containsChar '-'
        ((Py.split '\n' colswidth20_item0).getLastD "") = true →
      get_shared_features.location_of colswidth20_item0 = "Unknown") := by
  by_cases h : Py.containsChar '-'
      ((Py.split '\n' colswidth20_item0).getLastD "") = true
  · constructor
    · show Py.containsChar '-'
        (if Py.containsChar '-'
            ((Py.split '\n' colswidth20_item0).getLastD "") then "Unknown"
          else (Py.split '\n' colswidth20_item0).getLastD "") = false
      rw [if_pos h]
      decide
    · intro _
      show (if Py.containsChar '-'
          ((Py.split '\n' colswidth20_item0).getLastD "") then "Unknown"
        else (Py.split '\n' colswidth20_item0).getLastD "") = "Unknown"
      rw [if_pos h]
  · constructor
    · show Py.containsChar '-'
        (if Py.containsChar '-'
            ((Py.split '\n' colswidth20_item0).getLastD "") then "Unknown"
          else (Py.split '\n' colswidth20_item0).getLastD "") = false
      rw [if_neg h]
      exact Bool.eq_false_iff.mpr h
    · intro hcontra
      exact absurd hcontra h

theorem location_never_contains_dash_witness :
    Py.containsChar '-'
      (get_shared_features.location_of "Location\nPe-rerenan") = false ∧
    get_shared_features.location_of "Location\nPe-rerenan" = "Unknown" :=
  ⟨(location_never_contains_dash "Location\nPe-rerenan").1,
    (location_never_contains_dash "Location\nPe-rerenan").2 (by decide)⟩
